import Mathlib

/-!
Shallow embedding of `src/databank/image_data.py` (functions
`walk_image_data` and `report_image_data`), faithful to the Python source
at statement granularity.  Python dictionaries are modelled as association
lists with first-occurrence lookup and in-place replacement, Python
`datetime` values as records of numeric fields compared lexicographically,
and `collections.Counter` objects as association lists from value to count.
Runtime errors (KeyError, NameError, AttributeError, UnboundLocalError,
TypeError) are modelled explicitly; a statement returns the state reached
so far together with an optional error, because in Python mutations made
before an exception persist even though the exception aborts the run.
-/

/-- A Python `datetime.date`. -/
structure PyDate where
  year : Nat
  month : Nat
  day : Nat
deriving DecidableEq, Repr

/-- A Python `datetime.time`. -/
structure PyTime where
  hour : Nat
  minute : Nat
  second : Nat
deriving DecidableEq, Repr

/-- A Python `datetime.datetime`. -/
structure PyDateTime where
  year : Nat
  month : Nat
  day : Nat
  hour : Nat
  minute : Nat
  second : Nat
deriving DecidableEq, Repr

/-- Embedding of `datetime.datetime.combine(date, time)` (image_data.py line 102). -/
def combineDT (d : PyDate) (t : PyTime) : PyDateTime :=
  ⟨d.year, d.month, d.day, t.hour, t.minute, t.second⟩

/-- Embedding of `datetime.datetime(year, month, day)` — midnight of a date
(image_data.py lines 105-107). -/
def midnightDT (d : PyDate) : PyDateTime :=
  ⟨d.year, d.month, d.day, 0, 0, 0⟩

/-- Python's `<` on `datetime.datetime`: lexicographic comparison of the
components. -/
def dtLt (a b : PyDateTime) : Bool :=
  if a.year ≠ b.year then decide (a.year < b.year)
  else if a.month ≠ b.month then decide (a.month < b.month)
  else if a.day ≠ b.day then decide (a.day < b.day)
  else if a.hour ≠ b.hour then decide (a.hour < b.hour)
  else if a.minute ≠ b.minute then decide (a.minute < b.minute)
  else decide (a.second < b.second)

/-- Python's `<=` on `datetime.datetime` (a total order, so `a <= b` is
the complement of `b < a`). -/
def dtLe (a b : PyDateTime) : Bool :=
  !(dtLt b a)

/-- A decoded metadata value as the decoder may return it: DICOM attribute
values are strings, integers, dates, times, datetimes, or multi-valued
lists of strings (e.g. `ImageType`). -/
inductive BaseVal where
  | str : String → BaseVal
  | int : Int → BaseVal
  | date : PyDate → BaseVal
  | time : PyTime → BaseVal
  | dateTime : PyDateTime → BaseVal
  | strList : List String → BaseVal
deriving DecidableEq, Repr

/-- A value stored in a dictionary held by the local variable `metadata`
of `report_image_data`: either a plain decoded value (when the variable
still holds the decoded record) or a `collections.Counter` (a value of the
per-series aggregate dictionary the variable is rebound to on the
first-seen branch, line 111). -/
inductive MVal where
  | base : BaseVal → MVal
  | counter : List (BaseVal × Nat) → MVal
deriving DecidableEq, Repr

/-- The Python runtime errors that the embedded statements can raise. -/
inductive PyErr where
  | keyError : String → PyErr
  | nameError : String → PyErr
  | attributeError : String → PyErr
  | unboundLocal : String → PyErr
  | typeError : String → PyErr
deriving DecidableEq, Repr

/-- Dictionary lookup on an association list (first occurrence wins). -/
def alGet {κ α : Type} [DecidableEq κ] : List (κ × α) → κ → Option α
  | [], _ => none
  | (k', v) :: t, k => if k' = k then some v else alGet t k

/-- Dictionary assignment `d[k] = v`: replace the value at an existing
key in place, otherwise append the new binding (Python dictionaries keep
insertion order). -/
def alSet {κ α : Type} [DecidableEq κ] : List (κ × α) → κ → α → List (κ × α)
  | [], k, v => [(k, v)]
  | (k', v') :: t, k, v =>
      if k' = k then (k, v) :: t else (k', v') :: alSet t k v

/-- Embedding of `Counter.update` with a single element: increment its count,
or start it at 1. -/
def counterAdd (c : List (BaseVal × Nat)) (b : BaseVal) : List (BaseVal × Nat) :=
  match alGet c b with
  | some n => alSet c b (n + 1)
  | none => c ++ [(b, 1)]

/-- Embedding of `Counter.update(iterable)`. -/
def counterUpdate (c : List (BaseVal × Nat)) (bs : List BaseVal) : List (BaseVal × Nat) :=
  bs.foldl counterAdd c

/-- Embedding of `Counter(iterable)`. -/
def counterOf (bs : List BaseVal) : List (BaseVal × Nat) :=
  counterUpdate [] bs

/-- Iterating a decoded value, as `(x for x in image_types)` does on
line 114/122: a multi-valued attribute yields its elements, a string
yields its characters (as one-character strings), anything else raises
TypeError. -/
def iterElems : BaseVal → Except PyErr (List BaseVal)
  | .strList l => .ok (l.map .str)
  | .str s => .ok (s.toList.map fun c => .str (String.singleton c))
  | _ => .error (.typeError "object is not iterable")

/-- A decoded record: the dictionary `read_metadata` returns. -/
abbrev ImageRecord := List (String × BaseVal)

/-- The `Series` namedtuple of `report_image_data` (line 87): fields
`metadata` and `images`. -/
structure Series where
  metadata : List (String × MVal)
  images : List (BaseVal × String)
deriving DecidableEq, Repr

/-- The field names declared for the `Series` namedtuple (line 87).  Any
other attribute access on a `Series` value raises AttributeError; in
particular line 128 accesses `.files`, which is not among them. -/
def seriesFieldNames : List String := ["metadata", "images"]

/-- The result of one call to the external decoder `read_metadata`.
Modelled from the spec: the decoder itself lives outside this module
(`databank/dicom.py` is not part of the analysed sources); per the spec it
either returns a record or fails with exactly one of: unreadable file
(IOError), malformed/non-conformant format (InvalidDicomError), or a
missing attribute (AttributeError). -/
inductive DecodeResult where
  | ok : ImageRecord → DecodeResult
  | ioError : String → DecodeResult
  | invalidDicom : String → DecodeResult
  | attrFailure : String → DecodeResult

/-- One regular file encountered by the directory walk: its bare filename,
its path relative to the root, and the outcome of decoding it under a
given force flag.  Modelled from the spec: the decoder's outcome may
depend on the force flag (force mode salvages files without a standard
preamble). -/
structure FileEntry where
  name : String
  relpath : String
  decode : Bool → DecodeResult

/-- The names bound in the scope of `walk_image_data`: its locals, the
module globals of image_data.py, and nothing else relevant — the module
only does `from .dicom import read_metadata`, so the bare name `dicom`
used on line 52 is neither a local, a module global, nor a builtin. -/
def walkScopeNames : List String :=
  ["n", "start", "root", "dirs", "files", "filename", "abspath", "relpath",
   "metadata", "e",
   "logging", "logger", "os", "time", "datetime", "namedtuple", "Counter",
   "read_metadata", "walk_image_data", "report_image_data"]

/-- Embedding of `walk_image_data` (lines 15-60), as a function from the list of
regular files produced by `os.walk` to the list of yielded
`(metadata, relpath)` pairs together with the error, if any, that aborts
the generator.

Statement-level notes, keyed to the source:
* line 45: a file named `DICOMDIR` is skipped before any decoding;
* line 50: `except IOError` catches an unreadable-file failure — logged,
  walk continues;
* line 52: for any exception not matched by line 50, Python must evaluate
  the handler expression `dicom.filereader.InvalidDicomError`; the name
  `dicom` is unbound in this scope (`walkScopeNames`), so the evaluation
  raises NameError and the generator aborts.  This happens both for a
  malformed-format failure and for a missing-attribute failure (the
  `except AttributeError` clause on line 54 is never reached). -/
def walk_image_data (files : List FileEntry) (force : Bool) :
    List (ImageRecord × String) × Option PyErr :=
  match files with
  | [] => ([], none)
  | f :: rest =>
    if f.name = "DICOMDIR" then
      walk_image_data rest force
    else
      match f.decode force with
      | .ok md =>
          let r := walk_image_data rest force
          ((md, f.relpath) :: r.fst, r.snd)
      | .ioError _ => walk_image_data rest force
      | .invalidDicom _ => ([], some (.nameError "dicom"))
      | .attrFailure _ => ([], some (.nameError "dicom"))

/-- The mutable state of one `report_image_data` run: the series
dictionary being built, and the current binding of the local variable
`timestamp` — `none` while the local is still unassigned (Python function
locals persist across loop iterations, so a record without
`AcquisitionDate` sees the value left by an earlier record). -/
structure AggState where
  series_dict : List (BaseVal × Series)
  tsVar : Option PyDateTime
deriving DecidableEq, Repr

/-- The state at entry of `report_image_data`: empty dictionary, local
`timestamp` not yet assigned. -/
def initState : AggState :=
  ⟨[], none⟩

/-- The names bound in the scope of `report_image_data`: its locals and
the module globals.  The bare name `SeriesDescription` read on line 121 is
not among them (the local is `series_description`), so that statement
raises NameError. -/
def reportScopeNames : List String :=
  ["Series", "series_dict", "metadata", "relpath", "series_uid",
   "image_uid", "series_number", "series_description", "image_types",
   "acquisition_date", "acquisition_time", "timestamp", "x",
   "logging", "logger", "os", "time", "datetime", "namedtuple", "Counter",
   "read_metadata", "walk_image_data", "report_image_data"]

/-- Lines 98-107: compute the value the local `timestamp` holds after the
conditional.  When `AcquisitionDate` is absent the local is simply not
assigned, so it keeps its previous binding `prev`. -/
def computeTimestamp (md : ImageRecord) (prev : Option PyDateTime) :
    Except PyErr (Option PyDateTime) :=
  match alGet md "AcquisitionDate" with
  | some ad =>
    match alGet md "AcquisitionTime" with
    | some at' =>
      match ad, at' with
      | .date d, .time t => .ok (some (combineDT d t))
      | _, _ => .error (.typeError "datetime.combine")
    | none =>
      match ad with
      | .date d => .ok (some (midnightDT d))
      | _ => .error (.attributeError "year")
  | none => .ok prev

/-- Sequencing of embedded Python statements: run the second only if the
first did not raise; the state reached before an exception persists. -/
def pseq (f g : AggState → AggState × Option PyErr) (st : AggState) :
    AggState × Option PyErr :=
  match f st with
  | (st', none) => g st'
  | (st', some e) => (st', some e)

/-- Line 120:
`series_dict[series_uid].metadata['SeriesNumber'].update([series_number])`. -/
def stmt120 (series_uid series_number : BaseVal) (st : AggState) :
    AggState × Option PyErr :=
  match alGet st.series_dict series_uid with
  | none => (st, some (.keyError "series_uid"))
  | some s =>
    match alGet s.metadata "SeriesNumber" with
    | none => (st, some (.keyError "SeriesNumber"))
    | some (.counter c) =>
        let c' : MVal := .counter (counterUpdate c [series_number])
        let s' : Series := ⟨alSet s.metadata "SeriesNumber" c', s.images⟩
        ({ st with series_dict := alSet st.series_dict series_uid s' }, none)
    | some (.base _) => (st, some (.attributeError "update"))

/-- Line 121:
`series_dict[series_uid].metadata['SeriesDescription'].update([SeriesDescription])`.
The bare name `SeriesDescription` is unbound in this scope (see
`seriesDescription_name_unbound`; the local is `series_description`), so
evaluating the argument raises NameError before any update happens. -/
def stmt121 (st : AggState) : AggState × Option PyErr :=
  (st, some (.nameError "SeriesDescription"))

/-- Line 122:
`series_dict[series_uid].metadata['ImageType'].update(x for x in image_types)`. -/
def stmt122 (series_uid image_types : BaseVal) (st : AggState) :
    AggState × Option PyErr :=
  match alGet st.series_dict series_uid with
  | none => (st, some (.keyError "series_uid"))
  | some s =>
    match alGet s.metadata "ImageType" with
    | none => (st, some (.keyError "ImageType"))
    | some (.counter c) =>
        match iterElems image_types with
        | .error e => (st, some e)
        | .ok tags =>
            let c' : MVal := .counter (counterUpdate c tags)
            let s' : Series := ⟨alSet s.metadata "ImageType" c', s.images⟩
            ({ st with series_dict := alSet st.series_dict series_uid s' }, none)
    | some (.base _) => (st, some (.attributeError "update"))

/-- Lines 123-124: widen the lower end of the timestamp interval.  The
left operand `timestamp` is read first (UnboundLocalError if it was never
assigned); comparing a datetime against a non-datetime raises TypeError. -/
def stmt123 (series_uid : BaseVal) (st : AggState) : AggState × Option PyErr :=
  match st.tsVar with
  | none => (st, some (.unboundLocal "timestamp"))
  | some ts =>
    match alGet st.series_dict series_uid with
    | none => (st, some (.keyError "series_uid"))
    | some s =>
      match alGet s.metadata "MinAcquisitionDateTime" with
      | none => (st, some (.keyError "MinAcquisitionDateTime"))
      | some (.base (.dateTime tmin)) =>
          if dtLt ts tmin then
            let v' : MVal := .base (.dateTime ts)
            let s' : Series := ⟨alSet s.metadata "MinAcquisitionDateTime" v', s.images⟩
            ({ st with series_dict := alSet st.series_dict series_uid s' }, none)
          else (st, none)
      | some _ => (st, some (.typeError "datetime comparison"))

/-- Lines 125-126: widen the upper end of the timestamp interval. -/
def stmt125 (series_uid : BaseVal) (st : AggState) : AggState × Option PyErr :=
  match st.tsVar with
  | none => (st, some (.unboundLocal "timestamp"))
  | some ts =>
    match alGet st.series_dict series_uid with
    | none => (st, some (.keyError "series_uid"))
    | some s =>
      match alGet s.metadata "MaxAcquisitionDateTime" with
      | none => (st, some (.keyError "MaxAcquisitionDateTime"))
      | some (.base (.dateTime tmax)) =>
          if dtLt tmax ts then
            let v' : MVal := .base (.dateTime ts)
            let s' : Series := ⟨alSet s.metadata "MaxAcquisitionDateTime" v', s.images⟩
            ({ st with series_dict := alSet st.series_dict series_uid s' }, none)
          else (st, none)
      | some _ => (st, some (.typeError "datetime comparison"))

/-- Line 128: `series_dict[series_uid].files[image_uid] = relpath`.  The
subscript `series_dict[series_uid]` is evaluated first; then the attribute
access `.files` raises AttributeError, because the `Series` namedtuple
declares only the fields in `seriesFieldNames` (see
`files_not_a_series_field`), so the assignment never happens. -/
def stmt128 (series_uid : BaseVal) (st : AggState) : AggState × Option PyErr :=
  match alGet st.series_dict series_uid with
  | none => (st, some (.keyError "series_uid"))
  | some _ => (st, some (.attributeError "files"))

/-- The tuple of field names excluded by the optional-metadata loop
(lines 132-134), in source order. -/
def optExcluded : List String :=
  ["SeriesInstanceUID", "SeriesNumber", "SeriesDescription",
   "SOPInstanceUID", "ImageType", "AcquisitionDate", "AcquisitionTime"]

/-- Lines 130-138, the optional-metadata loop, iterating over the
dictionary currently bound to the local `metadata` (`mdict`).  On the
first-seen branch that local was rebound (line 111) to the per-series
aggregate dictionary itself; iterating over a snapshot of its entries is
observationally faithful because the loop raises before it ever mutates
an entry that it has yet to visit (see the claims below).  Counting an
updated value uses `Counter.update([metadata[x]])`; the attribute lookup
`.update` happens before the argument list is built, so a non-Counter
aggregate value raises AttributeError first.  A `Counter` value reaching
a counting position would raise TypeError (unhashable). -/
def optLoop (series_uid : BaseVal) :
    List (String × MVal) → AggState → AggState × Option PyErr
  | [], st => (st, none)
  | (x, v) :: rest, st =>
    if optExcluded.contains x then optLoop series_uid rest st
    else
      match alGet st.series_dict series_uid with
      | none => (st, some (.keyError "series_uid"))
      | some s =>
        match alGet s.metadata x with
        | some (.counter c) =>
            match v with
            | .base b =>
                let s' : Series := ⟨alSet s.metadata x (.counter (counterUpdate c [b])), s.images⟩
                optLoop series_uid rest ⟨alSet st.series_dict series_uid s', st.tsVar⟩
            | .counter _ => (st, some (.typeError "unhashable type"))
        | some (.base _) => (st, some (.attributeError "update"))
        | none =>
            match v with
            | .base b =>
                let s' : Series := ⟨alSet s.metadata x (.counter (counterOf [b])), s.images⟩
                optLoop series_uid rest ⟨alSet st.series_dict series_uid s', st.tsVar⟩
            | .counter _ => (st, some (.typeError "unhashable type"))

/-- The body of the `for` loop of `report_image_data` (lines 92-138) for
one yielded `(metadata, relpath)` pair. -/
def processRecord (st : AggState) (md : ImageRecord) (relpath : String) :
    AggState × Option PyErr :=
  match alGet md "SeriesInstanceUID" with
  | none => (st, some (.keyError "SeriesInstanceUID"))
  | some series_uid =>
  match alGet md "SOPInstanceUID" with
  | none => (st, some (.keyError "SOPInstanceUID"))
  | some image_uid =>
  match alGet md "SeriesNumber" with
  | none => (st, some (.keyError "SeriesNumber"))
  | some series_number =>
  match alGet md "SeriesDescription" with
  | none => (st, some (.keyError "SeriesDescription"))
  | some series_description =>
  match alGet md "ImageType" with
  | none => (st, some (.keyError "ImageType"))
  | some image_types =>
  match computeTimestamp md st.tsVar with
  | .error e => (st, some e)
  | .ok ts? =>
  let st1 : AggState := { st with tsVar := ts? }
  match alGet st1.series_dict series_uid with
  | none =>
      -- lines 110-118: first record of a new series.  The dictionary
      -- literal evaluates its entries in order, so the ImageType counter
      -- (line 114) is built before the local `timestamp` is read
      -- (line 115).
      match iterElems image_types with
      | .error e => (st1, some e)
      | .ok tags =>
        match st1.tsVar with
        | none => (st1, some (.unboundLocal "timestamp"))
        | some ts =>
          let aggMeta : List (String × MVal) :=
            [("SeriesNumber", .counter (counterOf [series_number])),
             ("SeriesDescription", .counter (counterOf [series_description])),
             ("ImageType", .counter (counterOf tags)),
             ("MinAcquisitionDateTime", .base (.dateTime ts)),
             ("MaxAcquisitionDateTime", .base (.dateTime ts))]
          let newSeries : Series := ⟨aggMeta, [(image_uid, relpath)]⟩
          let st2 : AggState := ⟨alSet st1.series_dict series_uid newSeries, st1.tsVar⟩
          -- line 111 rebound the local `metadata` to `aggMeta`, so the
          -- optional-metadata loop below iterates over the aggregate
          -- dictionary, not over the decoded record.
          optLoop series_uid aggMeta st2
  | some _ =>
      -- lines 119-128: the series already exists.  The statements run in
      -- sequence; the NameError raised on line 121 (see `stmt121`) stops
      -- them after the SeriesNumber update of line 120 has been applied,
      -- and the optional-metadata loop is then never reached either.
      pseq (stmt120 series_uid series_number)
        (pseq stmt121
          (pseq (stmt122 series_uid image_types)
            (pseq (stmt123 series_uid)
              (pseq (stmt125 series_uid)
                (pseq (stmt128 series_uid)
                  (optLoop series_uid (md.map fun p => (p.fst, .base p.snd))))))))
        st1

/-- The consume loop of `report_image_data` over the walker's yielded
pairs, stopping at the first raised error (the state reached so far
persists, but the exception propagates). -/
def foldRecords : List (ImageRecord × String) → AggState → AggState × Option PyErr
  | [], st => (st, none)
  | (md, rp) :: rest, st =>
    match processRecord st md rp with
    | (st', none) => foldRecords rest st'
    | (st', some e) => (st', some e)

/-- One whole `report_image_data` run, exposing the final internal state
and the error, if any, that aborted it.  Line 91 invokes the walker with
`force=True`, ignoring the caller's `force` argument.  A record-level
error stops consumption before the generator is pulled again, so it takes
precedence over a later walker abort. -/
def reportRun (files : List FileEntry) : AggState × Option PyErr :=
  let ys := (walk_image_data files true).fst
  let werr := (walk_image_data files true).snd
  match foldRecords ys initState with
  | (st, some e) => (st, some e)
  | (st, none) => (st, werr)

/-- Embedding of `report_image_data` (lines 63-140): returns the completed series
dictionary, or the propagated error with no partial result. -/
def report_image_data (files : List FileEntry) (force : Bool) :
    Except PyErr (List (BaseVal × Series)) :=
  match reportRun files with
  | (st, none) => .ok st.series_dict
  | (_, some e) => .error e

/-! Concrete sample data used to evaluate the embedding at specific
inputs. -/

/-- The date 2020-01-01. -/
def d1 : PyDate := ⟨2020, 1, 1⟩

/-- The time of day 10:30:00. -/
def tm1 : PyTime := ⟨10, 30, 0⟩

/-- The instant 2020-01-01T10:30:00, the timestamp of `mdA`. -/
def ts1 : PyDateTime := combineDT d1 tm1

/-- A record of series S1, image A1, with acquisition date and time. -/
def mdA : ImageRecord :=
  [("SeriesInstanceUID", .str "S1"), ("SOPInstanceUID", .str "A1"),
   ("SeriesNumber", .int 1), ("SeriesDescription", .str "T1w"),
   ("ImageType", .strList ["ORIGINAL", "PRIMARY"]),
   ("AcquisitionDate", .date d1), ("AcquisitionTime", .time tm1)]

/-- A second record of series S1, image A2. -/
def mdB : ImageRecord :=
  [("SeriesInstanceUID", .str "S1"), ("SOPInstanceUID", .str "A2"),
   ("SeriesNumber", .int 1), ("SeriesDescription", .str "T1w"),
   ("ImageType", .strList ["ORIGINAL", "PRIMARY"]),
   ("AcquisitionDate", .date ⟨2020, 1, 3⟩)]

/-- A record of series S1 repeating the image key A1 of `mdA` (same
`SOPInstanceUID`, to be decoded from a different file). -/
def mdB' : ImageRecord :=
  [("SeriesInstanceUID", .str "S1"), ("SOPInstanceUID", .str "A1"),
   ("SeriesNumber", .int 1), ("SeriesDescription", .str "T1w"),
   ("ImageType", .strList ["ORIGINAL", "PRIMARY"]),
   ("AcquisitionDate", .date ⟨2020, 1, 3⟩)]

/-- A record of a different series S2 with no `AcquisitionDate` at all. -/
def mdC : ImageRecord :=
  [("SeriesInstanceUID", .str "S2"), ("SOPInstanceUID", .str "C1"),
   ("SeriesNumber", .int 7), ("SeriesDescription", .str "fMRI"),
   ("ImageType", .strList ["ORIGINAL"])]

/-- A record of series S1 with an extra decoder-supplied field
`Modality`. -/
def mdD : ImageRecord :=
  [("SeriesInstanceUID", .str "S1"), ("SOPInstanceUID", .str "D1"),
   ("SeriesNumber", .int 1), ("SeriesDescription", .str "T1w"),
   ("ImageType", .strList ["ORIGINAL", "PRIMARY"]),
   ("AcquisitionDate", .date d1), ("AcquisitionTime", .time tm1),
   ("Modality", .str "MR")]

/-- A record lacking the required `SOPInstanceUID` field. -/
def mdE : ImageRecord :=
  [("SeriesInstanceUID", .str "S1"), ("SeriesNumber", .int 1),
   ("SeriesDescription", .str "T1w"),
   ("ImageType", .strList ["ORIGINAL", "PRIMARY"])]

/-- The file carrying `mdA`. -/
def fileA : FileEntry := ⟨"a.dcm", "sub/a.dcm", fun _ => .ok mdA⟩

/-- The file carrying `mdD`. -/
def fileD : FileEntry := ⟨"d.dcm", "sub/d.dcm", fun _ => .ok mdD⟩

/-- The file carrying `mdE`. -/
def fileE : FileEntry := ⟨"e.dcm", "sub/e.dcm", fun _ => .ok mdE⟩

/-- A file whose decode fails with a malformed-format error. -/
def fileBad : FileEntry := ⟨"b.dcm", "sub/b.dcm", fun _ => .invalidDicom "preamble"⟩

/-- A file named DICOMDIR (with arbitrary decodable content). -/
def fileDD : FileEntry := ⟨"DICOMDIR", "DICOMDIR", fun _ => .ok mdA⟩

/-- The aggregator state after the first record `mdA` has been folded in
(the fold of that record itself already aborts with an AttributeError in
the optional-metadata loop, but the mutations made before the exception
persist in the state). -/
def stA : AggState := (processRecord initState mdA "sub/a.dcm").fst
/-- A file whose decode fails with an unreadable-file error (IOError). -/
def fileUnreadable : FileEntry := ⟨"i.dcm", "sub/i.dcm", fun _ => .ioError "denied"⟩

/-- A file whose decode fails with a missing-attribute error. -/
def fileAttr : FileEntry := ⟨"m.dcm", "sub/m.dcm", fun _ => .attrFailure "PixelData"⟩

/-- The timestamp-interval property of one aggregate: both interval ends
are present as datetimes and the lower end is at most the upper end. -/
def tsBound (s : Series) : Prop :=
  ∃ tmin tmax,
    alGet s.metadata "MinAcquisitionDateTime" = some (MVal.base (BaseVal.dateTime tmin)) ∧
    alGet s.metadata "MaxAcquisitionDateTime" = some (MVal.base (BaseVal.dateTime tmax)) ∧
    dtLe tmin tmax = true

/-- The timestamp-interval invariant over a series dictionary: every
aggregate in it satisfies `tsBound`. -/
def tsDictInv (d : List (BaseVal × Series)) : Prop :=
  ∀ uid s, alGet d uid = some s → tsBound s

/-- The S1 aggregate as it stands in the aggregator state after the single
file `fileA` has been processed. -/
def sA : Series :=
  ⟨[("SeriesNumber", .counter [(.int 1, 1)]),
    ("SeriesDescription", .counter [(.str "T1w", 1)]),
    ("ImageType", .counter [(.str "ORIGINAL", 1), (.str "PRIMARY", 1)]),
    ("MinAcquisitionDateTime", .base (.dateTime ts1)),
    ("MaxAcquisitionDateTime", .base (.dateTime ts1))],
   [(.str "A1", "sub/a.dcm")]⟩

/-! Helper lemmas about the embedding. -/

theorem dtLt_irrefl (a : PyDateTime) : dtLt a a = false := by
  simp [dtLt]

theorem dtLe_refl (a : PyDateTime) : dtLe a a = true := by
  simp [dtLe, dtLt_irrefl]

theorem files_not_a_series_field : seriesFieldNames.contains "files" = false := by
  decide

theorem dicom_name_unbound : walkScopeNames.contains "dicom" = false := by
  decide

theorem seriesDescription_name_unbound :
    reportScopeNames.contains "SeriesDescription" = false := by
  decide

theorem alGet_alSet_self {κ α : Type} [DecidableEq κ] (l : List (κ × α)) (k : κ) (v : α) :
    alGet (alSet l k v) k = some v := by
  induction l with
  | nil => simp [alGet, alSet]
  | cons h t ih =>
    obtain ⟨k', v'⟩ := h
    by_cases hk : k' = k
    · simp [alGet, alSet, hk]
    · simp [alGet, alSet, hk, ih]

theorem alGet_alSet_ne {κ α : Type} [DecidableEq κ] (l : List (κ × α)) (k k' : κ) (v : α)
    (h : k' ≠ k) : alGet (alSet l k v) k' = alGet l k' := by
  induction l with
  | nil =>
    simp only [alSet, alGet]
    rw [if_neg (fun hh => h hh.symm)]
  | cons hd t ih =>
    obtain ⟨k0, v0⟩ := hd
    by_cases hk : k0 = k
    · subst hk
      simp only [alSet, if_pos rfl, alGet]
      rw [if_neg (fun hh => h hh.symm), if_neg (fun hh => h hh.symm)]
    · simp only [alSet, if_neg hk, alGet]
      by_cases hk' : k0 = k'
      · simp [hk']
      · simp [hk', ih]

/-! Claim theorems. -/

/-- C2: the spec claims that for every file whose decode fails with any of
the three decoder failure kinds the walker logs and continues, and the
walk never aborts.  The code only survives the unreadable-file kind
(IOError): for a malformed-format failure or a missing-attribute failure,
evaluating the handler expression on line 52 raises NameError (the name
`dicom` is unbound) and the whole walk aborts, so the subsequent good file
`fileA` is never yielded and the aggregation returns an error. -/
theorem walker_failure_policy_bug :
    walk_image_data [fileUnreadable, fileA] true = ([(mdA, "sub/a.dcm")], none) ∧
    walk_image_data [fileBad, fileA] true = ([], some (PyErr.nameError "dicom")) ∧
    walk_image_data [fileAttr, fileA] true = ([], some (PyErr.nameError "dicom")) ∧
    report_image_data [fileBad, fileA] true = Except.error (PyErr.nameError "dicom") :=
  ⟨rfl, rfl, rfl, rfl⟩

/-- C1: the spec claims that a record whose `SeriesInstanceUID` already
exists increments all three frequency tables.  Evaluating the fold step on
a state that already holds series S1 and a second S1 record: the
`SeriesNumber` counter is incremented (to 2), but the statement updating
the `SeriesDescription` table raises NameError (`SeriesDescription` is an
unbound name, line 121), so that table — and everything after it — is
never updated, and the run aborts. -/
theorem report_existing_series_update_bug :
    (processRecord stA mdB "sub/b.dcm").snd = some (PyErr.nameError "SeriesDescription") ∧
    ((alGet (processRecord stA mdB "sub/b.dcm").fst.series_dict (BaseVal.str "S1")).map
        (fun s => alGet s.metadata "SeriesNumber"))
      = some (some (MVal.counter [(BaseVal.int 1, 2)])) ∧
    ((alGet (processRecord stA mdB "sub/b.dcm").fst.series_dict (BaseVal.str "S1")).map
        (fun s => alGet s.metadata "SeriesDescription"))
      = some (some (MVal.counter [(BaseVal.str "T1w", 1)])) :=
  ⟨rfl, rfl, rfl⟩

/-- C4: the spec claims the record's image entry is inserted with
last-write-wins.  Evaluating the fold step on a state holding series S1
(image A1 at "sub/a.dcm") and a second S1 record repeating image key A1
from a different file: the step aborts with the line-121 NameError before
the insertion statement is even reached, the `images` mapping still holds
the first path, and the insertion statement itself (line 128), evaluated
in isolation, raises AttributeError because it accesses `.files` on a
namedtuple whose fields are `metadata` and `images`. -/
theorem image_insert_bug :
    (processRecord stA mdB' "sub/b2.dcm").snd = some (PyErr.nameError "SeriesDescription") ∧
    ((alGet (processRecord stA mdB' "sub/b2.dcm").fst.series_dict (BaseVal.str "S1")).map
        Series.images)
      = some [(BaseVal.str "A1", "sub/a.dcm")] ∧
    stmt128 (BaseVal.str "S1") stA = (stA, some (PyErr.attributeError "files")) :=
  ⟨rfl, rfl, rfl⟩

/-- C5: the spec claims every extra field gets a frequency table, also for
the first record of a series.  Running the aggregation on a single file
whose record carries the extra field `Modality`: the local `metadata` was
rebound to the aggregate dictionary (line 111), so the optional-field loop
iterates over the aggregate's own keys, raises AttributeError at
`MinAcquisitionDateTime` (a datetime has no `update`), the run aborts, and
no `Modality` table is ever created. -/
theorem optional_field_table_bug :
    report_image_data [fileD] true = Except.error (PyErr.attributeError "update") ∧
    ((alGet (reportRun [fileD]).fst.series_dict (BaseVal.str "S1")).map
        (fun s => alGet s.metadata "Modality"))
      = some none :=
  ⟨rfl, rfl⟩

/-- C3 (counterexample): the claim says that when `AcquisitionDate` is
absent no timestamp is computed for the record, and in particular no
timestamp derived from an earlier, unrelated record is used for it.  On
the state left by the S1 record `mdA` (timestamp 2020-01-01T10:30:00),
folding the date-less S2 record `mdC` seeds the brand-new S2 aggregate's
`MinAcquisitionDateTime` with exactly that stale S1 timestamp; and when no
earlier record ever assigned the local, the fold step instead aborts with
UnboundLocalError. -/
theorem timestamp_absent_reuses_stale :
    alGet mdC "AcquisitionDate" = none ∧
    ((alGet (processRecord stA mdC "sub/c.dcm").fst.series_dict (BaseVal.str "S2")).map
        (fun s => alGet s.metadata "MinAcquisitionDateTime"))
      = some (some (MVal.base (BaseVal.dateTime ts1))) ∧
    (processRecord initState mdC "sub/c.dcm").snd = some (PyErr.unboundLocal "timestamp") :=
  ⟨rfl, rfl, rfl⟩

/-- C3 (amended): for every incoming record, the value of the local
`timestamp` after lines 98-107 is: the combination of `AcquisitionDate`
and `AcquisitionTime` when both are present; midnight of `AcquisitionDate`
when only the date is present; and when `AcquisitionDate` is absent, the
variable's previous binding — possibly a timestamp computed from an
earlier, unrelated record, or nothing at all if no record has set it
yet. -/
theorem timestamp_computation_cases (md : ImageRecord) (prev : Option PyDateTime)
    (d : PyDate) (t : PyTime) :
    (alGet md "AcquisitionDate" = some (BaseVal.date d) →
      alGet md "AcquisitionTime" = some (BaseVal.time t) →
      computeTimestamp md prev = Except.ok (some (combineDT d t))) ∧
    (alGet md "AcquisitionDate" = some (BaseVal.date d) →
      alGet md "AcquisitionTime" = none →
      computeTimestamp md prev = Except.ok (some (midnightDT d))) ∧
    (alGet md "AcquisitionDate" = none → computeTimestamp md prev = Except.ok prev) := by
  refine ⟨?_, ?_, ?_⟩
  · intro h1 h2
    simp [computeTimestamp, h1, h2]
  · intro h1 h2
    simp [computeTimestamp, h1, h2]
  · intro h1
    simp [computeTimestamp, h1]

/-- Witness for `timestamp_computation_cases`: the date-less record `mdC`
leaves a previously assigned timestamp untouched. -/
theorem timestamp_computation_cases_w :
    computeTimestamp mdC (some ts1) = Except.ok (some ts1) :=
  (timestamp_computation_cases mdC (some ts1) d1 tm1).2.2 rfl

/-- C9: `report_image_data` invokes the walker with `force=True` (line 91)
no matter what `force` argument the caller passed, so the result is
literally independent of the caller's flag. -/
theorem report_force_ignored (files : List FileEntry) :
    report_image_data files true = report_image_data files false :=
  rfl

theorem walk_skip_aux (f : FileEntry) (hf : f.name = "DICOMDIR") (force : Bool) :
    ∀ pre post, walk_image_data (pre ++ f :: post) force
      = walk_image_data (pre ++ post) force := by
  intro pre
  induction pre with
  | nil =>
    intro post
    simp [walk_image_data, hf]
  | cons a t ih =>
    intro post
    by_cases hdd : a.name = "DICOMDIR"
    · simp [walk_image_data, hdd, ih]
    · cases hd : a.decode force with
      | ok md => simp [walk_image_data, hdd, hd, ih]
      | ioError s => simp [walk_image_data, hdd, hd, ih]
      | invalidDicom s => simp [walk_image_data, hdd, hd]
      | attrFailure s => simp [walk_image_data, hdd, hd]

/-- C7: a file literally named DICOMDIR is skipped unconditionally —
inserting one anywhere into the walked file list changes neither the
walker's output (its yields nor its terminal error) nor the aggregation
result, regardless of the DICOMDIR file's content. -/
theorem dicomdir_skipped (pre post : List FileEntry) (f : FileEntry) (force : Bool)
    (hf : f.name = "DICOMDIR") :
    walk_image_data (pre ++ f :: post) force = walk_image_data (pre ++ post) force ∧
    report_image_data (pre ++ f :: post) force = report_image_data (pre ++ post) force := by
  have hw := walk_skip_aux f hf
  refine ⟨hw force pre post, ?_⟩
  simp only [report_image_data, reportRun]
  rw [hw true pre post]

/-- Witness for `dicomdir_skipped`: a DICOMDIR file (even one carrying
decodable content) after a good file changes nothing. -/
theorem dicomdir_skipped_w :
    walk_image_data ([fileA] ++ fileDD :: []) true = walk_image_data ([fileA] ++ []) true ∧
    report_image_data ([fileA] ++ fileDD :: []) true
      = report_image_data ([fileA] ++ []) true :=
  dicomdir_skipped [fileA] [] fileDD true rfl

theorem processRecord_missing_key (st : AggState) (md : ImageRecord) (rp : String)
    (h : alGet md "SeriesInstanceUID" = none ∨ alGet md "SOPInstanceUID" = none ∨
      alGet md "SeriesNumber" = none ∨ alGet md "SeriesDescription" = none ∨
      alGet md "ImageType" = none) :
    ∃ fld, processRecord st md rp = (st, some (PyErr.keyError fld)) := by
  cases h1 : alGet md "SeriesInstanceUID" with
  | none => exact ⟨"SeriesInstanceUID", by simp [processRecord, h1]⟩
  | some u =>
  cases h2 : alGet md "SOPInstanceUID" with
  | none => exact ⟨"SOPInstanceUID", by simp [processRecord, h1, h2]⟩
  | some iu =>
  cases h3 : alGet md "SeriesNumber" with
  | none => exact ⟨"SeriesNumber", by simp [processRecord, h1, h2, h3]⟩
  | some sn =>
  cases h4 : alGet md "SeriesDescription" with
  | none => exact ⟨"SeriesDescription", by simp [processRecord, h1, h2, h3, h4]⟩
  | some sd =>
  cases h5 : alGet md "ImageType" with
  | none => exact ⟨"ImageType", by simp [processRecord, h1, h2, h3, h4, h5]⟩
  | some it' => simp_all

theorem foldRecords_mid (md : ImageRecord) (rp : String)
    (ys2 : List (ImageRecord × String)) (e : PyErr) :
    ∀ ys1 (st : AggState), (foldRecords ys1 st).snd = none →
      (processRecord (foldRecords ys1 st).fst md rp).snd = some e →
      (foldRecords (ys1 ++ (md, rp) :: ys2) st).snd = some e := by
  intro ys1
  induction ys1 with
  | nil =>
    intro st _ h2
    cases hp : processRecord st md rp with
    | mk st' oe =>
      have h2' : oe = some e := by
        have hfst : (foldRecords [] st).fst = st := rfl
        rw [hfst, hp] at h2
        exact h2
      subst h2'
      simp [foldRecords, hp]
  | cons y t ih =>
    intro st h1 h2
    obtain ⟨ymd, yrp⟩ := y
    cases hp : processRecord st ymd yrp with
    | mk st' oe =>
      cases oe with
      | none =>
        have hfold : foldRecords ((ymd, yrp) :: t) st = foldRecords t st' := by
          simp [foldRecords, hp]
        rw [hfold] at h1 h2
        simp only [List.cons_append, foldRecords, hp]
        exact ih st' h1 h2
      | some e' =>
        rw [show foldRecords ((ymd, yrp) :: t) st = (st', some e') by
          simp [foldRecords, hp]] at h1
        simp at h1

theorem report_of_runErr (files : List FileEntry) (force : Bool) (e : PyErr)
    (h : (reportRun files).snd = some e) :
    report_image_data files force = Except.error e := by
  cases hr : reportRun files with
  | mk st oe =>
    rw [hr] at h
    simp only at h
    simp [report_image_data, hr, h]

theorem reportRun_snd_of_fold (files : List FileEntry) (e : PyErr)
    (h : (foldRecords (walk_image_data files true).fst initState).snd = some e) :
    (reportRun files).snd = some e := by
  cases hf : foldRecords (walk_image_data files true).fst initState with
  | mk st oe =>
    rw [hf] at h
    simp only at h
    simp [reportRun, hf, h]

/-- C8: a successfully decoded record that reaches the aggregator but
lacks one of the five fields the aggregator requires raises a KeyError
that is not locally recovered: the aggregation run terminates and the
caller gets the error with no partial result mapping. -/
theorem contract_error_aborts (files : List FileEntry) (force : Bool)
    (ys1 ys2 : List (ImageRecord × String)) (md : ImageRecord) (rp : String)
    (hw : (walk_image_data files true).fst = ys1 ++ (md, rp) :: ys2)
    (hok : (foldRecords ys1 initState).snd = none)
    (hmiss : alGet md "SeriesInstanceUID" = none ∨ alGet md "SOPInstanceUID" = none ∨
      alGet md "SeriesNumber" = none ∨ alGet md "SeriesDescription" = none ∨
      alGet md "ImageType" = none) :
    ∃ fld, report_image_data files force = Except.error (PyErr.keyError fld) := by
  obtain ⟨fld, hpr⟩ :=
    processRecord_missing_key ((foldRecords ys1 initState).fst) md rp hmiss
  refine ⟨fld, report_of_runErr files force _ (reportRun_snd_of_fold files _ ?_)⟩
  rw [hw]
  exact foldRecords_mid md rp ys2 _ ys1 initState hok (by rw [hpr])

/-- Witness for `contract_error_aborts`: a single decodable file whose
record lacks `SOPInstanceUID`. -/
theorem contract_error_aborts_w :
    ∃ fld, report_image_data [fileE] true = Except.error (PyErr.keyError fld) :=
  contract_error_aborts [fileE] true [] [] mdE "sub/e.dcm" rfl rfl
    (Or.inr (Or.inl (by decide)))

theorem tsBound_set_counter (s : Series) (x : String) (c : List (BaseVal × Nat))
    (imgs : List (BaseVal × String)) (hb : tsBound s)
    (hx : alGet s.metadata x = none ∨ ∃ c0, alGet s.metadata x = some (MVal.counter c0)) :
    tsBound ⟨alSet s.metadata x (MVal.counter c), imgs⟩ := by
  obtain ⟨tmin, tmax, hmin, hmax, hle⟩ := hb
  have hxmin : ("MinAcquisitionDateTime" : String) ≠ x := by
    intro heq
    rw [← heq] at hx
    rcases hx with hx | ⟨c0, hx⟩
    · rw [hx] at hmin
      exact Option.noConfusion hmin
    · rw [hx] at hmin
      exact MVal.noConfusion (Option.some.inj hmin)
  have hxmax : ("MaxAcquisitionDateTime" : String) ≠ x := by
    intro heq
    rw [← heq] at hx
    rcases hx with hx | ⟨c0, hx⟩
    · rw [hx] at hmax
      exact Option.noConfusion hmax
    · rw [hx] at hmax
      exact MVal.noConfusion (Option.some.inj hmax)
  refine ⟨tmin, tmax, ?_, ?_, hle⟩
  · show alGet (alSet s.metadata x (MVal.counter c)) "MinAcquisitionDateTime" = _
    rw [alGet_alSet_ne s.metadata x "MinAcquisitionDateTime" _ hxmin]
    exact hmin
  · show alGet (alSet s.metadata x (MVal.counter c)) "MaxAcquisitionDateTime" = _
    rw [alGet_alSet_ne s.metadata x "MaxAcquisitionDateTime" _ hxmax]
    exact hmax

theorem tsDictInv_set (d : List (BaseVal × Series)) (u : BaseVal) (s' : Series)
    (h : tsDictInv d) (hs' : tsBound s') : tsDictInv (alSet d u s') := by
  intro uid s0 h0
  by_cases he : uid = u
  · subst he
    rw [alGet_alSet_self] at h0
    exact (Option.some.inj h0) ▸ hs'
  · rw [alGet_alSet_ne d u uid s' he] at h0
    exact h uid s0 h0

theorem tsInv_optLoop (u : BaseVal) (mdict : List (String × MVal)) :
    ∀ st : AggState, tsDictInv st.series_dict →
      tsDictInv (optLoop u mdict st).fst.series_dict := by
  induction mdict with
  | nil =>
    intro st h
    simpa [optLoop] using h
  | cons xv rest ih =>
    intro st h
    obtain ⟨x, v⟩ := xv
    cases hexc : optExcluded.contains x with
    | true =>
      simp only [optLoop, hexc, if_true]
      exact ih st h
    | false =>
      have hmem : ¬ (x ∈ optExcluded) := by
        simpa using hexc
      cases hu : alGet st.series_dict u with
      | none => simpa [optLoop, hexc, hmem, hu] using h
      | some s =>
        cases hm : alGet s.metadata x with
        | some mv =>
          cases mv with
          | counter c =>
            cases v with
            | base b =>
              simp [optLoop, hexc, hmem, hu, hm]
              apply ih
              exact tsDictInv_set _ _ _ h
                (tsBound_set_counter s x _ _ (h u s hu) (Or.inr ⟨c, hm⟩))
            | counter c2 => simpa [optLoop, hexc, hmem, hu, hm] using h
          | base b0 => simpa [optLoop, hexc, hmem, hu, hm] using h
        | none =>
          cases v with
          | base b =>
            simp [optLoop, hexc, hmem, hu, hm]
            apply ih
            exact tsDictInv_set _ _ _ h
              (tsBound_set_counter s x _ _ (h u s hu) (Or.inl hm))
          | counter c2 => simpa [optLoop, hexc, hmem, hu, hm] using h

theorem tsInv_stmt120 (u sn : BaseVal) (st : AggState) (h : tsDictInv st.series_dict) :
    tsDictInv (stmt120 u sn st).fst.series_dict := by
  cases hu : alGet st.series_dict u with
  | none => simpa [stmt120, hu] using h
  | some s =>
    cases hm : alGet s.metadata "SeriesNumber" with
    | none => simpa [stmt120, hu, hm] using h
    | some mv =>
      cases mv with
      | counter c =>
        simp [stmt120, hu, hm]
        exact tsDictInv_set _ _ _ h
          (tsBound_set_counter s "SeriesNumber" _ _ (h u s hu) (Or.inr ⟨c, hm⟩))
      | base b => simpa [stmt120, hu, hm] using h

theorem tsInv_processRecord (st : AggState) (md : ImageRecord) (rp : String)
    (h : tsDictInv st.series_dict) :
    tsDictInv (processRecord st md rp).fst.series_dict := by
  cases h1 : alGet md "SeriesInstanceUID" with
  | none => simpa [processRecord, h1] using h
  | some u =>
  cases h2 : alGet md "SOPInstanceUID" with
  | none => simpa [processRecord, h1, h2] using h
  | some iu =>
  cases h3 : alGet md "SeriesNumber" with
  | none => simpa [processRecord, h1, h2, h3] using h
  | some sn =>
  cases h4 : alGet md "SeriesDescription" with
  | none => simpa [processRecord, h1, h2, h3, h4] using h
  | some sd =>
  cases h5 : alGet md "ImageType" with
  | none => simpa [processRecord, h1, h2, h3, h4, h5] using h
  | some it' =>
  cases hct : computeTimestamp md st.tsVar with
  | error e => simpa [processRecord, h1, h2, h3, h4, h5, hct] using h
  | ok ts? =>
  cases hu : alGet st.series_dict u with
  | none =>
    cases hit : iterElems it' with
    | error e => simpa [processRecord, h1, h2, h3, h4, h5, hct, hu, hit] using h
    | ok tags =>
      cases ts? with
      | none => simpa [processRecord, h1, h2, h3, h4, h5, hct, hu, hit] using h
      | some ts =>
        simp [processRecord, h1, h2, h3, h4, h5, hct, hu, hit]
        apply tsInv_optLoop
        apply tsDictInv_set _ _ _ h
        exact ⟨ts, ts, rfl, rfl, dtLe_refl ts⟩
  | some s0 =>
    have h120 := tsInv_stmt120 u sn ⟨st.series_dict, ts?⟩ h
    cases hs : stmt120 u sn ⟨st.series_dict, ts?⟩ with
    | mk st' oe =>
      rw [hs] at h120
      cases oe with
      | some e =>
        simpa [processRecord, h1, h2, h3, h4, h5, hct, hu, pseq, hs] using h120
      | none =>
        simpa [processRecord, h1, h2, h3, h4, h5, hct, hu, pseq, hs, stmt121] using h120

theorem tsInv_fold : ∀ (ys : List (ImageRecord × String)) (st : AggState),
    tsDictInv st.series_dict → tsDictInv (foldRecords ys st).fst.series_dict := by
  intro ys
  induction ys with
  | nil =>
    intro st h
    simpa [foldRecords] using h
  | cons y t ih =>
    intro st h
    obtain ⟨md, rp⟩ := y
    have hp := tsInv_processRecord st md rp h
    cases hpr : processRecord st md rp with
    | mk st' oe =>
      rw [hpr] at hp
      cases oe with
      | none =>
        simp only [foldRecords, hpr]
        exact ih st' hp
      | some e => simpa [foldRecords, hpr] using hp

theorem tsInv_reportRun (files : List FileEntry) :
    tsDictInv (reportRun files).fst.series_dict := by
  have h := tsInv_fold (walk_image_data files true).fst initState
    (fun uid s hh => Option.noConfusion hh)
  cases hf : foldRecords (walk_image_data files true).fst initState with
  | mk st oe =>
    rw [hf] at h
    cases oe with
    | none => simpa [reportRun, hf] using h
    | some e => simpa [reportRun, hf] using h

/-- C6: in any state the aggregator can reach — whatever file sequence was
walked, and whether the run completed or aborted — every series aggregate
that exists (i.e. into which at least one image was folded) has its
minimum acquisition timestamp at most its maximum acquisition
timestamp. -/
theorem series_min_le_max (files : List FileEntry) (uid : BaseVal) (s : Series)
    (tmin tmax : PyDateTime)
    (hs : alGet (reportRun files).fst.series_dict uid = some s)
    (hmin : alGet s.metadata "MinAcquisitionDateTime"
      = some (MVal.base (BaseVal.dateTime tmin)))
    (hmax : alGet s.metadata "MaxAcquisitionDateTime"
      = some (MVal.base (BaseVal.dateTime tmax))) :
    dtLe tmin tmax = true := by
  obtain ⟨tmin', tmax', hmin', hmax', hle⟩ := tsInv_reportRun files uid s hs
  rw [hmin'] at hmin
  rw [hmax'] at hmax
  simp only [Option.some.injEq] at hmin hmax
  have e1 := BaseVal.dateTime.inj (MVal.base.inj hmin)
  have e2 := BaseVal.dateTime.inj (MVal.base.inj hmax)
  rw [← e1, ← e2]
  exact hle

/-- Witness for `series_min_le_max`: the S1 aggregate left by processing
`fileA`. -/
theorem series_min_le_max_w : dtLe ts1 ts1 = true :=
  series_min_le_max [fileA] (BaseVal.str "S1") sA ts1 ts1 rfl rfl rfl

theorem optLoop_frame (u uid : BaseVal) (hne : uid ≠ u) (mdict : List (String × MVal)) :
    ∀ st : AggState,
      alGet (optLoop u mdict st).fst.series_dict uid = alGet st.series_dict uid := by
  induction mdict with
  | nil =>
    intro st
    simp [optLoop]
  | cons xv rest ih =>
    intro st
    obtain ⟨x, v⟩ := xv
    cases hexc : optExcluded.contains x with
    | true =>
      simp only [optLoop, hexc, if_true]
      exact ih st
    | false =>
      have hmem : ¬ (x ∈ optExcluded) := by
        simpa using hexc
      cases hu : alGet st.series_dict u with
      | none => simp [optLoop, hexc, hmem, hu]
      | some s =>
        cases hm : alGet s.metadata x with
        | some mv =>
          cases mv with
          | counter c =>
            cases v with
            | base b =>
              simp [optLoop, hexc, hmem, hu, hm]
              rw [ih]
              exact alGet_alSet_ne st.series_dict u uid _ hne
            | counter c2 => simp [optLoop, hexc, hmem, hu, hm]
          | base b0 => simp [optLoop, hexc, hmem, hu, hm]
        | none =>
          cases v with
          | base b =>
            simp [optLoop, hexc, hmem, hu, hm]
            rw [ih]
            exact alGet_alSet_ne st.series_dict u uid _ hne
          | counter c2 => simp [optLoop, hexc, hmem, hu, hm]

theorem stmt120_frame (u sn uid : BaseVal) (hne : uid ≠ u) (st : AggState) :
    alGet (stmt120 u sn st).fst.series_dict uid = alGet st.series_dict uid := by
  cases hu : alGet st.series_dict u with
  | none => simp [stmt120, hu]
  | some s =>
    cases hm : alGet s.metadata "SeriesNumber" with
    | none => simp [stmt120, hu, hm]
    | some mv =>
      cases mv with
      | counter c =>
        simp [stmt120, hu, hm]
        exact alGet_alSet_ne st.series_dict u uid _ hne
      | base b => simp [stmt120, hu, hm]

/-- C10: folding one record touches only the aggregate keyed by that
record's own `SeriesInstanceUID` — every entry of the series dictionary
under any other key is left exactly as it was, so records bearing two
different series identifiers are never merged into one aggregate. -/
theorem fold_touches_only_own_series (st : AggState) (md : ImageRecord) (rp : String)
    (u uid : BaseVal) (hu : alGet md "SeriesInstanceUID" = some u) (hne : uid ≠ u) :
    alGet (processRecord st md rp).fst.series_dict uid = alGet st.series_dict uid := by
  cases h2 : alGet md "SOPInstanceUID" with
  | none => simp [processRecord, hu, h2]
  | some iu =>
  cases h3 : alGet md "SeriesNumber" with
  | none => simp [processRecord, hu, h2, h3]
  | some sn =>
  cases h4 : alGet md "SeriesDescription" with
  | none => simp [processRecord, hu, h2, h3, h4]
  | some sd =>
  cases h5 : alGet md "ImageType" with
  | none => simp [processRecord, hu, h2, h3, h4, h5]
  | some it' =>
  cases hct : computeTimestamp md st.tsVar with
  | error e => simp [processRecord, hu, h2, h3, h4, h5, hct]
  | ok ts? =>
  cases hser : alGet st.series_dict u with
  | none =>
    cases hit : iterElems it' with
    | error e => simp [processRecord, hu, h2, h3, h4, h5, hct, hser, hit]
    | ok tags =>
      cases ts? with
      | none => simp [processRecord, hu, h2, h3, h4, h5, hct, hser, hit]
      | some ts =>
        simp [processRecord, hu, h2, h3, h4, h5, hct, hser, hit]
        rw [optLoop_frame u uid hne]
        exact alGet_alSet_ne st.series_dict u uid _ hne
  | some s0 =>
    have h120 := stmt120_frame u sn uid hne ⟨st.series_dict, ts?⟩
    cases hs : stmt120 u sn ⟨st.series_dict, ts?⟩ with
    | mk st' oe =>
      rw [hs] at h120
      cases oe with
      | some e =>
        simpa [processRecord, hu, h2, h3, h4, h5, hct, hser, pseq, hs] using h120
      | none =>
        simpa [processRecord, hu, h2, h3, h4, h5, hct, hser, pseq, hs, stmt121] using h120

/-- Witness for `fold_touches_only_own_series`: folding the S1 record
`mdB` leaves the (absent) S2 entry untouched. -/
theorem fold_touches_only_own_series_w :
    alGet (processRecord stA mdB "sub/b.dcm").fst.series_dict (BaseVal.str "S2")
      = alGet stA.series_dict (BaseVal.str "S2") :=
  fold_touches_only_own_series stA mdB "sub/b.dcm" (BaseVal.str "S1") (BaseVal.str "S2")
    rfl (by decide)
